import Mathlib

/-!
Verification of the RPC provider core of `src/src/provider/rpc.ts`:
the endpoint dispatcher (`fetch`, `errorHandler`, `fetchEndpoint`),
the transaction confirmation poller (`waitForTransaction`), the
retry-budget handling of the constructor, and the block reference resolver
(the `Block` class, imported from `provider/utils` which is not part of
the sources, modelled from the spec).

The embedding is shallow: the transport is an input (a value describing
the outcome of the one exchange, or an oracle of receipt-fetch outcomes for
the poller), JavaScript exceptions become `Except` / explicit outcome
constructors, and the `while` loop of the poller is a fuel-indexed recursion
so that non-termination is observable as running out of any amount of
fuel.
-/

/-- A node-reported error object `{code, message}` as destructured by
`errorHandler` (rpc.ts line 69). -/
structure NodeErr where
  code : Int
  message : String
  deriving DecidableEq, Repr

/-- A thrown JavaScript error as observed by the catch block of `fetchEndpoint`:
its `message` and the optional `error?.response?.data` payload the catch
block feeds back into `errorHandler` (rpc.ts line 84). -/
structure DispatchError where
  message : String
  responseData : Option NodeErr
  deriving DecidableEq, Repr

/-- The decoded response envelope `{error, result}` destructured at
rpc.ts line 80; `result` is polymorphic in the result shape of the method. -/
structure Envelope (α : Type) where
  error : Option NodeErr
  result : α
  deriving DecidableEq, Repr

/-- Outcome of the single outbound transport exchange performed by a
`fetchEndpoint` call: the body decoded to an envelope, or the exchange
itself threw (connection failure, malformed / non-JSON body). -/
inductive TransportResult (α : Type) where
  | ok (env : Envelope α)
  | fail (e : DispatchError)
  deriving DecidableEq, Repr

/-- The message of the `Error` built by `errorHandler` (rpc.ts line 70),
rendering the template with code then a colon, a space and the message. -/
def nodeErrorMessage (ne : NodeErr) : String :=
  toString ne.code ++ ": " ++ ne.message

/-- `errorHandler` (rpc.ts lines 67-72): if the argument is non-null
(truthy), throw an `Error` rendering `code: message`; that `Error` carries
no `response` property. Otherwise do nothing. -/
def errorHandler (error : Option NodeErr) : Except DispatchError Unit :=
  match error with
  | some ne => .error ⟨nodeErrorMessage ne, none⟩
  | none => .ok ()

/-- The `try` block of `fetchEndpoint` (rpc.ts lines 78-82): await the
exchange and the JSON decode (a failure of either is `TransportResult.fail`),
run `errorHandler` on the `error` field of the envelope, and return `result`. -/
def fetchEndpointTry {α : Type} (t : TransportResult α) : Except DispatchError α :=
  match t with
  | .ok env =>
    match errorHandler env.error with
    | .error e => .error e
    | .ok () => .ok env.result
  | .fail e => .error e

/-- `fetchEndpoint` (rpc.ts lines 74-87): the `try` block, and on any caught
error the catch block re-invokes `errorHandler` on `error?.response?.data`
(which throws a fresh node-style error when that payload is present) and
otherwise rethrows the original error. -/
def fetchEndpoint {α : Type} (t : TransportResult α) : Except DispatchError α :=
  match fetchEndpointTry t with
  | .ok r => .ok r
  | .error e =>
    match errorHandler e.responseData with
    | .error e2 => .error e2
    | .ok () => .error e

/-- The JSON body built by `fetch` (rpc.ts line 62):
`stringify({method, jsonrpc: "2.0", params, id: 0})`. -/
structure RequestBody (P : Type) where
  method : String
  jsonrpc : String
  params : P
  id : Int
  deriving DecidableEq, Repr

/-- The outbound HTTP request assembled by `fetch` (rpc.ts lines 59-65):
POST to `this.nodeUrl` with the JSON body and the `Content-Type` header. -/
structure FetchRequest (P : Type) where
  url : String
  httpMethod : String
  body : RequestBody P
  contentTypeHeader : String
  deriving DecidableEq, Repr

/-- `RpcProvider.fetch` (rpc.ts lines 59-65): builds the one outbound
request for a call. -/
def rpcFetch {P : Type} (nodeUrl : String) (method : String) (params : P) :
    FetchRequest P :=
  ⟨nodeUrl, "POST", ⟨method, "2.0", params, 0⟩, "application/json"⟩

/-- `fetchEndpoint` instrumented with the list of outbound requests it
issues: the body calls `this.fetch` exactly once (rpc.ts line 79), with no
loop, cache or memoization, so the trace is the single request built by
`rpcFetch`. -/
def fetchEndpointRequests {α P : Type} (nodeUrl : String) (method : String)
    (params : P) (transport : FetchRequest P → TransportResult α) :
    Except DispatchError α × List (FetchRequest P) :=
  (fetchEndpoint (transport (rpcFetch nodeUrl method params)),
    [rpcFetch nodeUrl method params])

/-- Claim C6: a non-null envelope `error = {code, message}` makes the call fail
with message exactly `code: message`; a null/absent error field means
success. -/
theorem fetchEndpoint_node_error_message {α : Type} :
    ∀ (c : Int) (m : String) (x : α),
      fetchEndpoint (.ok ⟨some ⟨c, m⟩, x⟩) =
        .error ⟨toString c ++ ": " ++ m, none⟩ ∧
      fetchEndpoint (.ok ⟨some ⟨21, "Invalid params"⟩, x⟩) =
        .error ⟨"21: Invalid params", none⟩ ∧
      fetchEndpoint (.ok ⟨none, x⟩) = .ok x := by
  intro c m x
  refine ⟨rfl, rfl, rfl⟩

/-- Claim C7: an envelope carrying `result: X` and no `error` makes the call
return `X` unchanged. -/
theorem fetchEndpoint_result_passthrough {α : Type} :
    ∀ x : α, fetchEndpoint (.ok ⟨none, x⟩) = .ok x := by
  intro x
  rfl

/-- Claim C8: every outbound request has body
`{method, jsonrpc: "2.0", params, id: 0}` with `id` the constant 0,
header `Content-Type: application/json`, HTTP method POST to the node URL,
and each `fetchEndpoint` call issues exactly that one request. -/
theorem fetchEndpoint_one_request_shape {α P : Type} :
    ∀ (nodeUrl method : String) (params : P)
      (transport : FetchRequest P → TransportResult α),
      (fetchEndpointRequests nodeUrl method params transport).2 =
        [⟨nodeUrl, "POST", ⟨method, "2.0", params, 0⟩, "application/json"⟩] := by
  intro nodeUrl method params transport
  rfl

/-- Counterexample to claim C2: a transport failure whose error object
carries `response.data = {code: 55, message: "boom"}` is re-handled by the
`errorHandler` call of the catch block and surfaces as the node-style error
`55: boom` instead of the original transport error. -/
theorem fetchEndpoint_transport_reinterpreted :
    (fetchEndpoint (.fail ⟨"connection refused", some ⟨55, "boom"⟩⟩) :
        Except DispatchError Nat) = .error ⟨"55: boom", none⟩ ∧
    (⟨"55: boom", none⟩ : DispatchError) ≠
      ⟨"connection refused", some ⟨55, "boom"⟩⟩ := by
  exact ⟨rfl, by decide⟩

/-- Claim C2 as amended: on a transport failure the call fails by rethrowing
the caught error itself (there is no distinct TransportError type), except
that the catch block first re-invokes `errorHandler` on
`error?.response?.data`, so a transport error carrying such a payload is
reinterpreted as a node-style `code: message` failure. -/
theorem fetchEndpoint_transport_failure (α : Type) (e : DispatchError) :
    (e.responseData = none →
      (fetchEndpoint (.fail e) : Except DispatchError α) = .error e) ∧
    ∀ ne : NodeErr, e.responseData = some ne →
      (fetchEndpoint (.fail e) : Except DispatchError α) =
        .error ⟨nodeErrorMessage ne, none⟩ := by
  constructor
  · intro h
    simp [fetchEndpoint, fetchEndpointTry, errorHandler, h]
  · intro ne h
    simp [fetchEndpoint, fetchEndpointTry, errorHandler, h]

/-- Witness for the amended claim C2 at concrete inputs. -/
theorem fetchEndpoint_transport_failure_witness :
    (fetchEndpoint (.fail ⟨"ECONNREFUSED", none⟩) : Except DispatchError Nat) =
      .error ⟨"ECONNREFUSED", none⟩ ∧
    (fetchEndpoint (.fail ⟨"Request failed", some ⟨-32603, "Internal error"⟩⟩) :
        Except DispatchError Nat) = .error ⟨"-32603: Internal error", none⟩ :=
  ⟨(fetchEndpoint_transport_failure Nat ⟨"ECONNREFUSED", none⟩).1 rfl,
   (fetchEndpoint_transport_failure Nat
      ⟨"Request failed", some ⟨-32603, "Internal error"⟩⟩).2
      ⟨-32603, "Internal error"⟩ rfl⟩

/-- A parsed transaction receipt as consumed by `waitForTransaction`
(rpc.ts line 314): the `status` string it branches on, plus an opaque
stand-in (`rest`) for every other field of the receipt. -/
structure Receipt where
  status : String
  rest : Nat
  deriving DecidableEq, Repr

/-- Outcome of one `getTransactionReceipt` attempt inside the loop: the
parsed receipt, or a thrown `Error` (transport or node error) with its
message. -/
inductive ReceiptFetch where
  | ok (res : Receipt)
  | err (message : String)
  deriving DecidableEq, Repr

/-- An `Error` escaping `waitForTransaction`: its `message` and, when set
at rpc.ts line 321, the `response` property holding the full receipt. -/
structure ThrownError where
  message : String
  response : Option Receipt
  deriving DecidableEq, Repr

/-- How a fuel-bounded run of `waitForTransaction` ends: the function
returned normally (returning `undefined`, it carries no value), an error
was thrown, or the run used up all fuel without the loop terminating. -/
inductive WaitOutcome where
  | completed
  | raised (e : ThrownError)
  | outOfFuel
  deriving DecidableEq, Repr

/-- Observable trace of one `waitForTransaction` run: the outcome, the
number of `wait(retryInterval)` suspensions, the number of
`getTransactionReceipt` attempts, and the final value of the loop-local
`retries` variable. -/
structure WaitRun where
  outcome : WaitOutcome
  waits : Nat
  fetches : Nat
  retriesLeft : Int
  deriving DecidableEq, Repr

/-- `successStates` (rpc.ts line 307). -/
def successStates : List String := ["ACCEPTED_ON_L1", "ACCEPTED_ON_L2", "PENDING"]

/-- `errorStates` (rpc.ts line 308). -/
def errorStates : List String := ["REJECTED", "NOT_RECEIVED"]

/-- The message of the budget-exhaustion error (rpc.ts line 330). -/
def timedOutMessage : String := "waitForTransaction timedout with retries"

/-- The `while (!onchain)` loop of `waitForTransaction` (rpc.ts lines
306-335), fuel-indexed. Each iteration: one `wait(retryInterval)`
suspension, then one receipt fetch (`oracle i`).
On a fetched receipt: a status in `successStates` sets `onchain = true`,
runs the unconditional `retries -= 1` at line 334, exits the loop and
performs the final `wait(retryInterval)` of line 337 (hence `waits + 2`);
a status in `errorStates` throws an `Error` whose message is the status
and whose `response` is the receipt, which the catch block rethrows
(message is in `errorStates`) without reaching the decrement; any other
status falls through the `if` chain without throwing, so the catch block
(and its `retries === 0` check) never runs, `retries` is decremented and
the loop continues.
On a thrown fetch error: the catch block rethrows it if its message is in
`errorStates`; otherwise it throws the timeout error when `retries === 0`,
and else swallows it, after which `retries` is decremented and the loop
continues. -/
def waitLoop (oracle : Nat → ReceiptFetch) :
    Nat → Nat → Int → Nat → Nat → WaitRun
  | 0, _, retries, waits, fetches => ⟨.outOfFuel, waits, fetches, retries⟩
  | fuel + 1, i, retries, waits, fetches =>
    match oracle i with
    | .ok res =>
      if successStates.contains res.status then
        ⟨.completed, waits + 2, fetches + 1, retries - 1⟩
      else if errorStates.contains res.status then
        ⟨.raised ⟨res.status, some res⟩, waits + 1, fetches + 1, retries⟩
      else
        waitLoop oracle fuel (i + 1) (retries - 1) (waits + 1) (fetches + 1)
    | .err msg =>
      if errorStates.contains msg then
        ⟨.raised ⟨msg, none⟩, waits + 1, fetches + 1, retries⟩
      else if retries = 0 then
        ⟨.raised ⟨timedOutMessage, none⟩, waits + 1, fetches + 1, retries⟩
      else
        waitLoop oracle fuel (i + 1) (retries - 1) (waits + 1) (fetches + 1)

/-- `waitForTransaction` (rpc.ts lines 302-338): copy the `retries` field of the instance into the loop-local budget and run the loop from the first
fetch attempt with zero suspensions and fetches performed. -/
def waitForTransaction (retries : Int) (oracle : Nat → ReceiptFetch)
    (fuel : Nat) : WaitRun :=
  waitLoop oracle fuel 0 retries 0 0

theorem waitLoop_const_received (fuel : Nat) :
    ∀ (i : Nat) (retries : Int) (waits fetches : Nat),
      waitLoop (fun _ => .ok ⟨"RECEIVED", 0⟩) fuel i retries waits fetches =
        ⟨.outOfFuel, waits + fuel, fetches + fuel, retries - fuel⟩ := by
  induction fuel with
  | zero =>
    intro i retries waits fetches
    simp [waitLoop]
  | succ n ih =>
    intro i retries waits fetches
    rw [waitLoop]
    have hs : successStates.contains "RECEIVED" = false := by decide
    have he : errorStates.contains "RECEIVED" = false := by decide
    simp only [hs, he, Bool.false_eq_true, if_false]
    rw [ih]
    simp only [WaitRun.mk.injEq]
    refine ⟨trivial, by omega, by omega, by omega⟩

/-- Claim C1 (refuted by the code): with `retries = 3` and every receipt
fetch succeeding with the non-terminal status `RECEIVED`, the loop never
terminates — for every amount of fuel the run ends `outOfFuel`, because
the `retries === 0` check sits inside the catch block and a successfully
fetched non-terminal status throws nothing; the session never reports
budget exhaustion. -/
theorem waitForTransaction_nonterminal_diverges :
    ∀ (R : Int) (fuel : Nat),
      (waitForTransaction R (fun _ => .ok ⟨"RECEIVED", 0⟩) fuel).outcome =
        .outOfFuel := by
  intro R fuel
  rw [waitForTransaction, waitLoop_const_received]

/-- Claim C3 (refuted by the code): with a budget of 0, a persistently
non-terminal status (`RECEIVED`) loops forever instead of reporting
exhaustion after one attempt, and a `PENDING` status — being listed in
`successStates` — makes the session return normally after a single fetch,
not report exhaustion. -/
theorem waitForTransaction_zero_retries :
    (∀ fuel : Nat,
      (waitForTransaction 0 (fun _ => .ok ⟨"RECEIVED", 0⟩) fuel).outcome =
        .outOfFuel) ∧
    waitForTransaction 0 (fun _ => .ok ⟨"PENDING", 0⟩) 5 =
      ⟨.completed, 2, 1, -1⟩ := by
  constructor
  · intro fuel
    rw [waitForTransaction, waitLoop_const_received]
  · decide

/-- Counterexample to claim C4: a first fetch returning `ACCEPTED_ON_L1`
with budget 5 ends in a normal return that carries no receipt, and the
loop-local `retries` has been decremented from 5 to 4 by the unconditional
`retries -= 1` — the claim assertion "never decrements the retry budget" fails. -/
theorem waitForTransaction_success_decrements :
    waitForTransaction 5 (fun _ => .ok ⟨"ACCEPTED_ON_L1", 7⟩) 3 =
      ⟨.completed, 2, 1, 4⟩ ∧ (4 : Int) ≠ 5 := by
  decide

/-- Claim C4 as amended: if the first receipt fetch returns a status in
`successStates`, the session performs exactly one additional interval
suspension after the loop (two suspensions in total against one fetch),
returns normally without yielding the receipt (the function returns
`undefined`), and the loop-local `retries` is decremented exactly once,
with no observable effect on the outcome. -/
theorem waitForTransaction_success_first_fetch (R : Int)
    (oracle : Nat → ReceiptFetch) (res : Receipt) (fuel : Nat)
    (hor : oracle 0 = .ok res)
    (hs : successStates.contains res.status = true) (hf : 0 < fuel) :
    waitForTransaction R oracle fuel = ⟨.completed, 2, 1, R - 1⟩ := by
  obtain ⟨n, rfl⟩ : ∃ n, fuel = n + 1 := ⟨fuel - 1, by omega⟩
  rw [waitForTransaction, waitLoop, hor]
  simp only [hs, if_true]

/-- Witness for the amended claim C4 at a concrete input. -/
theorem waitForTransaction_success_first_fetch_witness :
    waitForTransaction 5 (fun _ => .ok ⟨"ACCEPTED_ON_L2", 9⟩) 4 =
      ⟨.completed, 2, 1, 5 - 1⟩ :=
  waitForTransaction_success_first_fetch 5 (fun _ => .ok ⟨"ACCEPTED_ON_L2", 9⟩)
    ⟨"ACCEPTED_ON_L2", 9⟩ 4 rfl (by decide) (by decide)

/-- A receipt-fetch outcome that neither ends the loop nor throws: a
successfully fetched receipt whose status is in neither `successStates`
nor `errorStates`. -/
def isNonTerminalOk : ReceiptFetch → Bool
  | .ok res =>
    !(successStates.contains res.status) && !(errorStates.contains res.status)
  | .err _ => false

theorem mem_errorStates_not_successStates (s : String)
    (h : errorStates.contains s = true) :
    successStates.contains s = false := by
  have hmem : s ∈ errorStates := by
    simpa using h
  simp only [errorStates, List.mem_cons, List.not_mem_nil, or_false] at hmem
  rcases hmem with h1 | h1 <;> subst h1 <;> decide

theorem waitLoop_failure_terminal (k : Nat) :
    ∀ (oracle : Nat → ReceiptFetch) (fuel i : Nat) (retries : Int)
      (waits fetches : Nat) (res : Receipt),
      (∀ j, j < k → isNonTerminalOk (oracle (i + j)) = true) →
      oracle (i + k) = .ok res →
      errorStates.contains res.status = true →
      k < fuel →
      waitLoop oracle fuel i retries waits fetches =
        ⟨.raised ⟨res.status, some res⟩, waits + k + 1, fetches + k + 1,
          retries - k⟩ := by
  induction k with
  | zero =>
    intro oracle fuel i retries waits fetches res hpre hk hstatus hfuel
    obtain ⟨n, rfl⟩ : ∃ n, fuel = n + 1 := ⟨fuel - 1, by omega⟩
    rw [Nat.add_zero] at hk
    rw [waitLoop, hk]
    have hs : successStates.contains res.status = false :=
      mem_errorStates_not_successStates res.status hstatus
    simp only [hs, Bool.false_eq_true, if_false, hstatus, if_true]
    simp only [WaitRun.mk.injEq]
    refine ⟨trivial, trivial, trivial, by omega⟩
  | succ k ih =>
    intro oracle fuel i retries waits fetches res hpre hk hstatus hfuel
    obtain ⟨n, rfl⟩ : ∃ n, fuel = n + 1 := ⟨fuel - 1, by omega⟩
    have h0 : isNonTerminalOk (oracle i) = true := by
      simpa using hpre 0 (by omega)
    rw [waitLoop]
    cases horacle : oracle i with
    | ok res0 =>
      rw [horacle] at h0
      simp only [isNonTerminalOk, Bool.and_eq_true, Bool.not_eq_true'] at h0
      obtain ⟨hns, hne⟩ := h0
      simp only [hns, hne, Bool.false_eq_true, if_false]
      have hpre2 : ∀ j, j < k → isNonTerminalOk (oracle (i + 1 + j)) = true := by
        intro j hj
        have := hpre (j + 1) (by omega)
        have harith : i + (j + 1) = i + 1 + j := by omega
        rwa [harith] at this
      have hk2 : oracle (i + 1 + k) = .ok res := by
        have harith : i + (k + 1) = i + 1 + k := by omega
        rwa [harith] at hk
      rw [ih oracle n (i + 1) (retries - 1) (waits + 1) (fetches + 1) res
        hpre2 hk2 hstatus (by omega)]
      simp only [WaitRun.mk.injEq]
      refine ⟨trivial, by omega, by omega, by omega⟩
    | err msg =>
      rw [horacle] at h0
      simp [isNonTerminalOk] at h0

/-- Claim C5. First part: from any loop state whatsoever (any attempt
index, any remaining budget), a fetch returning a receipt whose status is
in `errorStates` (`REJECTED` / `NOT_RECEIVED`) makes the session throw
immediately — one more suspension and fetch, no further looping, the
loop-local `retries` untouched — an error carrying the terminal status as
its message and the full receipt as its `response`. Second part, at
session level: when the attempts before attempt k (zero-based) are
non-terminal classifications and attempt k returns such a receipt, the
whole session performs exactly k + 1 fetch attempts and throws that same
error, the budget reduced only by the k earlier non-terminal
iterations. -/
theorem waitForTransaction_failure_terminal :
    (∀ (oracle : Nat → ReceiptFetch) (fuel i : Nat) (retries : Int)
      (waits fetches : Nat) (res : Receipt),
      oracle i = .ok res →
      errorStates.contains res.status = true →
      0 < fuel →
      waitLoop oracle fuel i retries waits fetches =
        ⟨.raised ⟨res.status, some res⟩, waits + 1, fetches + 1, retries⟩) ∧
    ∀ (k : Nat) (R : Int) (oracle : Nat → ReceiptFetch) (res : Receipt)
      (fuel : Nat),
      (∀ j, j < k → isNonTerminalOk (oracle j) = true) →
      oracle k = .ok res →
      errorStates.contains res.status = true →
      k < fuel →
      waitForTransaction R oracle fuel =
        ⟨.raised ⟨res.status, some res⟩, k + 1, k + 1, R - k⟩ := by
  constructor
  · intro oracle fuel i retries waits fetches res hk hstatus hfuel
    have h := waitLoop_failure_terminal 0 oracle fuel i retries waits fetches
      res (fun j hj => absurd hj (Nat.not_lt_zero j)) (by simpa using hk)
      hstatus (by omega)
    simpa using h
  · intro k R oracle res fuel hpre hk hstatus hfuel
    have h := waitLoop_failure_terminal k oracle fuel 0 R 0 0 res
      (by simpa using hpre) (by simpa using hk) hstatus hfuel
    simpa [waitForTransaction] using h

/-- Witness for claim C5: a mid-session loop state hitting `NOT_RECEIVED`,
and the scenario given in the spec — a non-terminal first attempt, then
`REJECTED` on the second attempt with budget 200. -/
theorem waitForTransaction_failure_terminal_witness :
    waitLoop (fun _ => .ok ⟨"NOT_RECEIVED", 3⟩) 4 6 7 8 9 =
      ⟨.raised ⟨"NOT_RECEIVED", some ⟨"NOT_RECEIVED", 3⟩⟩, 9, 10, 7⟩ ∧
    waitForTransaction 200
      (fun j => if j = 0 then .ok ⟨"RECEIVED", 0⟩ else .ok ⟨"REJECTED", 1⟩) 3 =
      ⟨.raised ⟨"REJECTED", some ⟨"REJECTED", 1⟩⟩, 2, 2, 200 - 1⟩ := by
  constructor
  · have h := waitForTransaction_failure_terminal.1
      (fun _ => .ok ⟨"NOT_RECEIVED", 3⟩) 4 6 7 8 9 ⟨"NOT_RECEIVED", 3⟩
      rfl (by decide) (by decide)
    simpa using h
  · have h := waitForTransaction_failure_terminal.2 1 200
      (fun j => if j = 0 then .ok ⟨"RECEIVED", 0⟩ else .ok ⟨"REJECTED", 1⟩)
      ⟨"REJECTED", 1⟩ 3 (by decide) (by decide) (by decide) (by decide)
    simpa using h

/-- Modelled from the spec: the `Block` class of `provider/utils`
(imported at rpc.ts line 32 but absent from the sources) normalizes a
caller-supplied block reference into the wire `block_id`. Spec section 3:
a `BlockReference` is a tagged variant — a symbolic tag, a height, or a
hash — with exactly one variant populated. -/
inductive BlockReference where
  | tag (t : String)
  | height (n : Nat)
  | hash (h : String)
  deriving DecidableEq, Repr

/-- Modelled from the spec: the wire identifier shape, a structurally
distinct encoding per variant — the literal tag string, a
`{block_number: n}` object, or a `{block_hash: h}` object. -/
inductive WireBlockId where
  | tagLiteral (t : String)
  | blockNumber (n : Nat)
  | blockHash (h : String)
  deriving DecidableEq, Repr

/-- Modelled from the spec: `resolve(ref) -> WireBlockId` (spec section
4.1) — `Tag(t)` to the literal tag string, `Height(n)` to
`{block_number: n}`, `Hash(h)` to `{block_hash: h}`; no validation of
hash format or height bounds. -/
def resolve : BlockReference → WireBlockId
  | .tag t => .tagLiteral t
  | .height n => .blockNumber n
  | .hash h => .blockHash h

/-- Claim C9: `resolve` is a pure total function — defined on every
variant with the wire shape the spec gives, performing no validation, and the
same input always yields the same wire shape. -/
theorem resolve_pure_total :
    (∀ t : String, resolve (.tag t) = .tagLiteral t) ∧
    (∀ n : Nat, resolve (.height n) = .blockNumber n) ∧
    (∀ h : String, resolve (.hash h) = .blockHash h) ∧
    (∀ r r' : BlockReference, r = r' → resolve r = resolve r') :=
  ⟨fun _ => rfl, fun _ => rfl, fun _ => rfl, fun _ _ h => by rw [h]⟩

/-- Witness for claim C9 at concrete inputs of each variant. -/
theorem resolve_pure_total_witness :
    resolve (.tag "latest") = .tagLiteral "latest" ∧
    resolve (.height 7) = .blockNumber 7 ∧
    resolve (.hash "0xabc") = .blockHash "0xabc" ∧
    resolve (.tag "pending") = resolve (.tag "pending") :=
  ⟨resolve_pure_total.1 "latest", resolve_pure_total.2.1 7,
   resolve_pure_total.2.2.1 "0xabc",
   resolve_pure_total.2.2.2 (.tag "pending") (.tag "pending") rfl⟩

/-- The options accepted by the `RpcProvider` constructor (rpc.ts lines
34-37): the node URL and an optional retry count. -/
structure RpcProviderOptions where
  nodeUrl : String
  retries : Option Int
  deriving DecidableEq, Repr

/-- The constructed provider state: the fields the modelled methods read. -/
structure RpcProviderState where
  nodeUrl : String
  retries : Int
  deriving DecidableEq, Repr

/-- The `RpcProvider` constructor (rpc.ts lines 49-57): destructures the
options and sets `this.retries = retries || 200`; the JavaScript `||`
replaces both an absent field (undefined) and the number 0 (both falsy)
with the default 200, and keeps any other number. The fire-and-forget
`getChainId` call made by the constructor is not modelled. -/
def mkRpcProvider (o : RpcProviderOptions) : RpcProviderState :=
  ⟨o.nodeUrl,
    match o.retries with
    | none => 200
    | some r => if r = 0 then 200 else r⟩

/-- `RpcProvider.waitForTransaction` entry (rpc.ts line 303): the session
budget `let { retries } = this` is the `retries` field of the instance,
set by the constructor. -/
def providerWaitForTransaction (s : RpcProviderState)
    (oracle : Nat → ReceiptFetch) (fuel : Nat) : WaitRun :=
  waitForTransaction s.retries oracle fuel

/-- Claim C10: constructing the provider with `retries: 0` (or with the
field absent) yields a retry budget of 200 — the configured zero is
silently replaced by the default — and every subsequent
`waitForTransaction` session runs with budget 200. -/
theorem mkRpcProvider_zero_retries_default :
    ∀ (url : String) (oracle : Nat → ReceiptFetch) (fuel : Nat),
      (mkRpcProvider ⟨url, some 0⟩).retries = 200 ∧
      (mkRpcProvider ⟨url, none⟩).retries = 200 ∧
      providerWaitForTransaction (mkRpcProvider ⟨url, some 0⟩) oracle fuel =
        waitForTransaction 200 oracle fuel :=
  fun _ _ _ => ⟨rfl, rfl, rfl⟩
